import Mathlib

/-!
Verification development for the Ounass feed comparator
(`src/ounass_comparator.py`), a single-file tool that fetches two
product XML feeds, parses them into flat product records, caches the
parsed snapshot on disk per (feed, day), filters by brand/category and
compares the identifier sets of the two snapshots.

The embedding below translates the relevant Python functions into Lean:

* `cleanPrice` embeds `clean_price` (lines 33-52).  `float` parsing is
  modelled by `parseFloat` on the digit/dot strings that can actually
  reach it, returning a `PyFloat`: the exact decimal value when it is
  below the IEEE double overflow threshold, and `inf` at or above it,
  because CPython `float()` on an overflowing literal saturates to
  infinity instead of raising.  (Rounding of in-range values to the
  nearest double is not modelled; it affects neither sign nor
  finiteness nor the exactly representable values the claims name.)
* `parseXmlFeed` embeds `parse_xml_feed` (lines 54-131) over an XML
  element tree (`XmlElem`); the outcome of `ET.fromstring` on the raw
  text is modelled by an `Except` value, error for a raised
  `ET.ParseError`.  The Python code binds the local variable
  `atom_ns_uri` only on the branch where no `channel` child exists, yet
  reads it for every item; on the `channel` branch this raises
  `UnboundLocalError`, which the generic handler turns into an empty
  result with an error report.  The embedding reproduces this.
* `loadOrFetchFeedData` embeds `load_or_fetch_feed_data`
  (lines 133-175) with the file system passed explicitly (`FS`) and the
  network/decode outcome passed as a `FetchOutcome` value.
* `filterSnapshot`, `productsOnlyInA`, `productsOnlyInB`,
  `productsInBoth` embed the sidebar filtering (lines 252-265) and the
  set comparison (lines 268-273).
* `toExcel` embeds `to_excel` (lines 183-192) at the level of which
  sheets the workbook contains and which rows each sheet holds.
-/

/-- A Python float as `clean_price` can produce it: a finite value
(held as the exact decimal the parsed string denotes) or positive
infinity, which CPython `float()` returns for an overflowing decimal
literal.  Negative values, minus infinity and NaN are unreachable here:
the regex admits no sign and no letters. -/
inductive PyFloat : Type where
  | finite (val : ℚ) : PyFloat
  | inf : PyFloat
deriving DecidableEq, Repr

/-- The IEEE double overflow threshold: a correctly rounded `float()`
returns `inf` exactly when the decimal value is at least
2^1024 - 2^970, the midpoint above the largest finite double
(2^1024 - 2^971), which ties-to-even rounds up to infinity. -/
def overflowBound : ℚ := 2 ^ 1024 - 2 ^ 970

/-- A flat product record, the dictionary built per item in
`parse_xml_feed` (lines 115-124).  Optional fields are `Option`-valued:
`none` is the missing marker (Python `None`). -/
structure Product where
  product_id : String
  title : Option String
  brand : Option String
  category : Option String
  price : Option PyFloat
  sale_price : Option PyFloat
  link : Option String
  image_link : Option String
deriving DecidableEq, Repr

/-- Character class of the Python regex `[\d\.,]+` in `clean_price`:
digits, dots and commas. -/
def isPriceChar (c : Char) : Bool :=
  c.isDigit || c = '.' || c = ','

/-- `re.search` for the pattern `[\d\.,]+`: the leftmost maximal run of
price characters, `[]` when no character of the class occurs. -/
def firstRun : List Char → List Char
  | [] => []
  | c :: rest =>
      if isPriceChar c then c :: rest.takeWhile isPriceChar
      else firstRun rest

/-- Numeric value of a decimal digit character. -/
def digitVal (c : Char) : ℕ := c.toNat - 48

/-- Value of a decimal digit string read left to right (0 when empty). -/
def natFromDigits (cs : List Char) : ℕ :=
  cs.foldl (fun acc c => 10 * acc + digitVal c) 0

/-- Python `float(s)` restricted to the strings that can reach it in
`clean_price` (digits and dots after the commas are stripped): the parse
succeeds iff there is at least one digit and at most one dot, and the
result is the exact decimal the string denotes when that value is below
the double overflow threshold, `inf` when it is at or above it
(CPython `float()` saturates on overflow instead of raising). -/
def parseFloat (cs : List Char) : Option PyFloat :=
  if cs.count '.' ≤ 1 ∧ cs.any Char.isDigit ∧ cs.all (fun c => c.isDigit || c = '.') then
    let intPart := cs.takeWhile (fun c => c ≠ '.')
    let fracPart := (cs.dropWhile (fun c => c ≠ '.')).drop 1
    let val := (natFromDigits intPart : ℚ) +
      (natFromDigits fracPart : ℚ) / ((10 : ℚ) ^ fracPart.length)
    if overflowBound ≤ val then some PyFloat.inf else some (PyFloat.finite val)
  else none

/-- Embedding of `clean_price` (lines 33-52).  The argument is the
possibly-absent string Python receives (`None` ↦ `none`); the result is
`none` where Python returns `None`. -/
def cleanPrice (priceStr : Option String) : Option PyFloat :=
  match priceStr with
  | none => none
  | some s =>
    if s.isEmpty then none
    else
      match firstRun s.toList with
      | [] => none
      | c :: cs => parseFloat ((c :: cs).filter (fun x => x ≠ ','))

/-- An XML element as `xml.etree.ElementTree` presents it: a tag (with
the namespace URI in braces, as ElementTree expands prefixed names), the
attribute list, the element text (`none` when the element has no text)
and the list of child elements. -/
inductive XmlElem : Type where
  | node (tag : String) (attrs : List (String × String)) (text : Option String)
      (children : List XmlElem) : XmlElem

def XmlElem.tag : XmlElem → String
  | .node t _ _ _ => t

def XmlElem.attrs : XmlElem → List (String × String)
  | .node _ a _ _ => a

def XmlElem.text : XmlElem → Option String
  | .node _ _ tx _ => tx

def XmlElem.children : XmlElem → List XmlElem
  | .node _ _ _ cs => cs

/-- `Element.find(tag)`: the first direct child with the given tag. -/
def XmlElem.findChild (e : XmlElem) (t : String) : Option XmlElem :=
  e.children.find? (fun c => c.tag == t)

/-- `Element.findall(tag)`: all direct children with the given tag, in
document order. -/
def XmlElem.findAll (e : XmlElem) (t : String) : List XmlElem :=
  e.children.filter (fun c => c.tag == t)

/-- `Element.findtext(tag)`: `none` when no child matches, otherwise the
text of the first matching child, the empty string when that child has
no text. -/
def XmlElem.findtext (e : XmlElem) (t : String) : Option String :=
  (e.findChild t).map (fun c => c.text.getD "")

/-- `Element.get(name)`: attribute lookup, `none` when absent. -/
def XmlElem.getAttr (e : XmlElem) (a : String) : Option String :=
  (e.attrs.find? (fun p => p.1 == a)).map (fun p => p.2)

/-- `Element.find("tag[@attr=value]")`: first direct child with the tag
whose attribute has the given value. -/
def XmlElem.findChildWithAttr (e : XmlElem) (t a v : String) : Option XmlElem :=
  e.children.find? (fun c => c.tag == t && c.getAttr a == some v)

/-- A namespace URI wrapped in braces, the ElementTree expanded-name
form (braces spelled via escapes). -/
def nsBrace (uri : String) : String := "\x7b" ++ uri ++ "\x7d"

/-- The Google Shopping namespace bound to the `g` key in `NAMESPACES`
(line 29). -/
def googleNs : String := "http://base.google.com/ns/1.0"

/-- Expanded name of a `g:`-prefixed tag. -/
def gTag (t : String) : String := nsBrace googleNs ++ t

/-- The Atom namespace URI assigned to `atom_ns_uri` (line 69). -/
def atomNsUri : String := "http://www.w3.org/2005/Atom"

/-- Expanded name of an `atom:`-prefixed tag. -/
def atomTag (t : String) : String := nsBrace atomNsUri ++ t

/-- Python `s.startswith(p)`. -/
def strStartsWith (s p : String) : Bool := p.toList.isPrefixOf s.toList

/-- The loop body of `parse_xml_feed` (lines 79-124) for one item
element, on the branch where `atom_ns_uri` is bound: extracts each field
and keeps the record exactly when the `g:id` text is truthy (present and
non-empty). -/
def extractItem (item : XmlElem) : Option Product :=
  let isAtomEntry := strStartsWith item.tag (nsBrace atomNsUri)
  let product_id := item.findtext (gTag "id")
  let title0 := item.findtext "title"
  let title := if title0 = none ∧ isAtomEntry then item.findtext (atomTag "title") else title0
  let link0 := item.findtext "link"
  let link :=
    if link0 = none ∧ isAtomEntry then
      match item.findChildWithAttr (atomTag "link") "rel" "alternate" with
      | some le => le.getAttr "href"
      | none => none
    else link0
  let image_link := item.findtext (gTag "image_link")
  let brand := item.findtext (gTag "brand")
  let cat0 := item.findtext (gTag "product_type")
  let category :=
    if cat0 = none ∨ cat0 = some "" then item.findtext (gTag "custom_label_0") else cat0
  let price := cleanPrice (item.findtext (gTag "price"))
  let sale_price := cleanPrice (item.findtext (gTag "sale_price"))
  match product_id with
  | none => none
  | some pid =>
      if pid = "" then none
      else some ⟨pid, title, brand, category, price, sale_price, link, image_link⟩

/-- Outcome of `parse_xml_feed`: the returned product list together
with the error report issued through `st.error`, `none` when no error
was reported. -/
structure ParseResult where
  products : List Product
  error : Option String
deriving DecidableEq, Repr

/-- The message of the generic handler (line 128-130) for the
`UnboundLocalError` raised at line 85: on the branch where a `channel`
child exists, the local `atom_ns_uri` is read without ever having been
assigned (it is assigned only at line 69, on the other branch). -/
def unexpectedErrorMsg : String :=
  "An unexpected error occurred while processing XML: local variable atom_ns_uri referenced before assignment"

/-- Embedding of `parse_xml_feed` (lines 54-131).  The argument models
the outcome of `ET.fromstring` on the raw text: `Except.error` for a
raised `ET.ParseError`, `Except.ok` for the parsed root element.  On the
`channel` branch, the first loop iteration raises `UnboundLocalError`
(see `unexpectedErrorMsg`), so any channel document with at least one
item produces an empty list and an error report. -/
def parseXmlFeed (xmlContent : Except String XmlElem) : ParseResult :=
  match xmlContent with
  | .error e => ⟨[], some ("XML parsing error for the feed: " ++ e)⟩
  | .ok root =>
    match root.findChild "channel" with
    | some channel =>
        let items := channel.findAll "item"
        if items.isEmpty then ⟨[], none⟩
        else ⟨[], some unexpectedErrorMsg⟩
    | none =>
        let items :=
          if strStartsWith root.tag (nsBrace atomNsUri) then root.findAll (atomTag "entry")
          else if root.tag = "channel" ∨ root.tag = "feed" then
            (let l := root.findAll "item"
             if l.isEmpty then root.findAll (atomTag "entry") else l)
          else root.findAll "item"
        ⟨items.filterMap extractItem, none⟩

/-- A well-formed channel-family item carrying a non-empty `g:id` and a
title. -/
def chanItem : XmlElem :=
  .node "item" [] none
    [.node (gTag "id") [] (some "1") [], .node "title" [] (some "Shirt") []]

/-- A well-formed channel-family document: a root with a `channel`
child holding one item. -/
def channelDoc : XmlElem :=
  .node "rss" [] none [.node "channel" [] none [chanItem]]

/-- An item whose `g:product_type` child is present but has empty text,
and which has no `g:custom_label_0` child. -/
def emptyTypeItem : XmlElem :=
  .node "item" [] none
    [.node (gTag "id") [] (some "1") [], .node (gTag "product_type") [] (some "") []]

/-- A document hitting the fallback branch of the dialect probe (root
is neither namespaced nor named `channel`/`feed` and has no `channel`
child), so its items are actually extracted. -/
def fallbackDoc : XmlElem := .node "products" [] none [emptyTypeItem]

/-- The brand filter (lines 255-259): when the brand selection is
empty, the filter is not applied; otherwise keep the rows whose brand is
one of the selected values (pandas `isin`, which is false for a missing
brand). -/
def applyBrandFilter (selectedBrands : List String) (df : List Product) : List Product :=
  if selectedBrands.isEmpty then df
  else df.filter (fun p =>
    match p.brand with
    | some b => selectedBrands.contains b
    | none => false)

/-- The category filter (lines 261-265), same shape as the brand
filter. -/
def applyCategoryFilter (selectedCategories : List String) (df : List Product) : List Product :=
  if selectedCategories.isEmpty then df
  else df.filter (fun p =>
    match p.category with
    | some c => selectedCategories.contains c
    | none => false)

/-- `df_A_filtered` / `df_B_filtered` (lines 252-265): brand filter
applied first, category filter applied to its result. -/
def filterSnapshot (selectedBrands selectedCategories : List String)
    (df : List Product) : List Product :=
  applyCategoryFilter selectedCategories (applyBrandFilter selectedBrands df)

/-- `set(df['product_id'])` (lines 268-269): the identifier set of a
snapshot. -/
def idsOf (df : List Product) : Finset String :=
  (df.map Product.product_id).toFinset

/-- `products_only_in_A_ids` (line 271): identifiers of filtered A not
in filtered B. -/
def productsOnlyInA (dfA dfB : List Product)
    (selectedBrands selectedCategories : List String) : Finset String :=
  idsOf (filterSnapshot selectedBrands selectedCategories dfA) \
    idsOf (filterSnapshot selectedBrands selectedCategories dfB)

/-- `products_only_in_B_ids` (line 272): the mirror image. -/
def productsOnlyInB (dfA dfB : List Product)
    (selectedBrands selectedCategories : List String) : Finset String :=
  idsOf (filterSnapshot selectedBrands selectedCategories dfB) \
    idsOf (filterSnapshot selectedBrands selectedCategories dfA)

/-- `products_in_both_ids` (line 273): the intersection. -/
def productsInBoth (dfA dfB : List Product)
    (selectedBrands selectedCategories : List String) : Finset String :=
  idsOf (filterSnapshot selectedBrands selectedCategories dfA) ∩
    idsOf (filterSnapshot selectedBrands selectedCategories dfB)

/-- Filename sanitization in `load_or_fetch_feed_data` (line 138):
every non-alphanumeric character becomes an underscore. -/
def safeFeedKey (feedKey : String) : String :=
  String.mk (feedKey.toList.map (fun c => if c.isAlphanum then c else '_'))

/-- The snapshot path (line 139): directory, sanitized feed key, date,
`.parquet` extension. -/
def snapshotFile (feedKey dateStr : String) : String :=
  "feed_snapshots/" ++ safeFeedKey feedKey ++ "_" ++ dateStr ++ ".parquet"

/-- A persisted snapshot file: either readable parquet data or a file
whose deserialization raises (the `except` at line 145). -/
inductive SnapFile : Type where
  | good (data : List Product) : SnapFile
  | corrupt : SnapFile
deriving DecidableEq, Repr

/-- The snapshot directory contents, newest write first. -/
structure FS where
  files : List (String × SnapFile)
deriving DecidableEq, Repr

/-- `os.path.exists` plus `pd.read_parquet`: the current content stored
under a path, `none` when no such file exists. -/
def FS.read (fs : FS) (path : String) : Option SnapFile :=
  (fs.files.find? (fun f => f.1 == path)).map (fun f => f.2)

/-- `df.to_parquet(path)`: overwrite the path with fresh data. -/
def FS.write (fs : FS) (path : String) (data : List Product) : FS :=
  ⟨(path, .good data) :: fs.files⟩

/-- Outcome of the network stage of `load_or_fetch_feed_data` (lines
150-157): either a raised `requests` exception (including
`raise_for_status`), or a decoded body, given as its `ET.fromstring`
outcome. -/
inductive FetchOutcome : Type where
  | requestError (msg : String) : FetchOutcome
  | success (body : Except String XmlElem) : FetchOutcome

/-- What one call to `load_or_fetch_feed_data` produces: the returned
records, the file system afterwards, and the warnings and errors
reported through `st.warning` / `st.error`. -/
structure LoadResult where
  data : List Product
  fs : FS
  warnings : List String
  errors : List String
deriving DecidableEq, Repr

/-- The fetch-parse-persist path of `load_or_fetch_feed_data` (lines
149-175): on a request exception, report an error and return empty; on
success, parse the body; an empty product list is returned without
being persisted (the early return at line 165), with a warning when the
parser itself reported no error; a non-empty list is persisted to the
snapshot path and returned. -/
def fetchAndStore (fs : FS) (feedKey path : String) (fetch : FetchOutcome) : LoadResult :=
  match fetch with
  | .requestError m =>
      ⟨[], fs, [], ["Could not download feed " ++ feedKey ++ ": " ++ m]⟩
  | .success body =>
      let pr := parseXmlFeed body
      if pr.products.isEmpty then
        ⟨[], fs,
          if pr.error.isSome then []
          else ["No products found or parsed for " ++ feedKey],
          pr.error.toList⟩
      else ⟨pr.products, fs.write path pr.products, [], pr.error.toList⟩

/-- Embedding of `load_or_fetch_feed_data` (lines 133-175) with the
snapshot directory passed explicitly and the date string fixed by the
caller (Python takes it from the local clock).  If the snapshot file
exists and reads back, return it; if reading raises, warn and fall
through to `fetchAndStore`; if no file exists, go straight to
`fetchAndStore`. -/
def loadOrFetchFeedData (fs : FS) (feedKey dateStr : String)
    (fetch : FetchOutcome) : LoadResult :=
  let path := snapshotFile feedKey dateStr
  match fs.read path with
  | some (.good data) => ⟨data, fs, [], []⟩
  | some .corrupt =>
      let r := fetchAndStore fs feedKey path fetch
      ⟨r.data, r.fs,
        ("Could not load snapshot " ++ path ++ ". Refetching data.") :: r.warnings,
        r.errors⟩
  | none => fetchAndStore fs feedKey path fetch

/-- Embedding of `to_excel` (lines 183-192) at the level of the
workbook contents: the sheets are exactly the named collections that
are non-empty, in input order, each holding its collection's rows. -/
def toExcel (dfDict : List (String × List Product)) : List (String × List Product) :=
  dfDict.filter (fun e => !e.2.isEmpty)

/-- A channel-family document whose channel has no items: the parser
loop never runs, so it returns an empty list without an error. -/
def noItemsChannelDoc : XmlElem :=
  .node "rss" [] none [.node "channel" [] none []]

/-- A document on the fallback branch with one item carrying `g:id`
"1", so parsing yields one record. -/
def oneItemFallbackDoc : XmlElem :=
  .node "products" [] none [.node "item" [] none [.node (gTag "id") [] (some "1") []]]

/-- Record id1 with brand X (concrete scenario of the spec). -/
def pA1 : Product := ⟨"id1", none, some "X", none, none, none, none, none⟩

/-- Record id2 with brand Y. -/
def pA2 : Product := ⟨"id2", none, some "Y", none, none, none, none, none⟩

/-- Record id3 with brand X. -/
def pB3 : Product := ⟨"id3", none, some "X", none, none, none, none, none⟩

/-- A channel-family item with id, title and brand, used to instantiate
the extraction theorems on a concrete input. -/
def itemW : XmlElem :=
  .node "item" [] none
    [.node (gTag "id") [] (some "1") [], .node "title" [] (some "T") [],
     .node (gTag "brand") [] (some "B") []]

/-- The record `extractItem` produces for `itemW`. -/
def productW : Product := ⟨"1", some "T", some "B", none, none, none, none, none⟩

/-- A price string whose numeric run is four hundred nines: its decimal
value exceeds the double range, so CPython `float()` yields `inf`. -/
def hugePriceStr : String := String.mk (List.replicate 400 '9') ++ " AED"

theorem parseFloat_finite_bounds (cs : List Char) (q : ℚ)
    (h : parseFloat cs = some (PyFloat.finite q)) : 0 ≤ q ∧ q < overflowBound := by
  unfold parseFloat at h
  split at h
  · dsimp only at h
    split at h
    · exact absurd h (by simp)
    · rename_i hlt
      simp only [Option.some.injEq, PyFloat.finite.injEq] at h
      subst h
      refine ⟨?_, not_le.mp hlt⟩
      have h1 : (0 : ℚ) ≤ (natFromDigits (cs.takeWhile (fun c => c ≠ '.')) : ℚ) := by
        exact_mod_cast Nat.zero_le _
      have h2 : (0 : ℚ) ≤ (natFromDigits ((cs.dropWhile (fun c => c ≠ '.')).drop 1) : ℚ) / ((10 : ℚ) ^ ((cs.dropWhile (fun c => c ≠ '.')).drop 1).length) := by
        apply div_nonneg
        · exact_mod_cast Nat.zero_le _
        · positivity
      linarith
  · exact absurd h (by simp)

theorem cleanPrice_finite_bounds (s : Option String) (q : ℚ)
    (h : cleanPrice s = some (PyFloat.finite q)) : 0 ≤ q ∧ q < overflowBound := by
  unfold cleanPrice at h
  match s with
  | none => exact absurd h (by simp)
  | some str =>
    simp only at h
    split at h
    · exact absurd h (by simp)
    · split at h
      · exact absurd h (by simp)
      · exact parseFloat_finite_bounds _ _ h

theorem digitVal0 : digitVal '0' = 0 := by decide

theorem digitVal1 : digitVal '1' = 1 := by decide

theorem digitVal2 : digitVal '2' = 2 := by decide

theorem digitVal3 : digitVal '3' = 3 := by decide

theorem digitVal4 : digitVal '4' = 4 := by decide

theorem digitVal5 : digitVal '5' = 5 := by decide

theorem digitVal9 : digitVal '9' = 9 := by decide

set_option maxRecDepth 8000 in
/-- C2 counterexample: on a price string whose numeric run is four
hundred nines, `clean_price` returns `inf` — CPython `float()` on an
overflowing decimal literal saturates to infinity instead of raising —
so the result is neither the unavailable marker nor a finite float,
refuting the claim's finiteness conjunct. -/
theorem cleanPrice_overflow_inf :
    cleanPrice (some hugePriceStr) = some PyFloat.inf ∧
    (∀ q : ℚ, cleanPrice (some hugePriceStr) ≠ some (PyFloat.finite q)) := by
  have hpf : parseFloat ('9' :: List.replicate 399 '9') = some PyFloat.inf := by
    unfold parseFloat
    rw [if_pos (by decide)]
    have ht : ('9' :: List.replicate 399 '9').takeWhile (fun c => c ≠ '.')
        = '9' :: List.replicate 399 '9' := by decide
    have hd : ('9' :: List.replicate 399 '9').dropWhile (fun c => c ≠ '.')
        = ([] : List Char) := by decide
    have hn : natFromDigits ('9' :: List.replicate 399 '9') = 10 ^ 400 - 1 := by decide
    simp only [ht, hd, hn, List.drop, List.length_nil]
    rw [if_pos]
    norm_num [overflowBound, natFromDigits]
  have hmain : cleanPrice (some hugePriceStr) = some PyFloat.inf := by
    have hne : hugePriceStr.isEmpty = false := by decide
    have h1 : firstRun hugePriceStr.toList = '9' :: List.replicate 399 '9' := by decide
    have h2 : (('9' :: List.replicate 399 '9').filter (fun x => x ≠ ','))
        = '9' :: List.replicate 399 '9' := by decide
    simp only [cleanPrice, hne, Bool.false_eq_true, if_false, h1, h2, hpf]
  refine ⟨hmain, ?_⟩
  intro q hq
  rw [hmain] at hq
  exact PyFloat.noConfusion (Option.some.inj hq)

/-- C2 (amended): for every input, `clean_price` yields either the
unavailable marker `none`, or `inf` (when the numeric run's decimal
value reaches the double overflow threshold), or a finite value that is
nonnegative and below that threshold; the embedding is total, so no
exception escapes; moreover it maps "49300 AED" to 49300,
"AED 1,250.00" to 1250, the empty string to `none`, an absent string to
`none`, and "1.2.3" (two decimal points) to `none`. -/
theorem cleanPrice_spec :
    (∀ s : Option String, cleanPrice s = none ∨ cleanPrice s = some PyFloat.inf ∨
       ∃ q : ℚ, cleanPrice s = some (PyFloat.finite q) ∧ 0 ≤ q ∧ q < overflowBound) ∧
    cleanPrice (some "49300 AED") = some (PyFloat.finite 49300) ∧
    cleanPrice (some "AED 1,250.00") = some (PyFloat.finite 1250) ∧
    cleanPrice (some "") = none ∧
    cleanPrice none = none ∧
    cleanPrice (some "1.2.3") = none := by
  refine ⟨?_, ?_, ?_, by decide, rfl, ?_⟩
  · intro s
    match hcp : cleanPrice s with
    | none => exact Or.inl rfl
    | some PyFloat.inf => exact Or.inr (Or.inl rfl)
    | some (PyFloat.finite q) =>
        have hb := cleanPrice_finite_bounds s q hcp
        exact Or.inr (Or.inr ⟨q, rfl, hb.1, hb.2⟩)
  · have h1 : firstRun ("49300 AED").toList = ['4', '9', '3', '0', '0'] := by decide
    simp +decide only [cleanPrice, h1, parseFloat, natFromDigits, List.filter,
      List.takeWhile, List.dropWhile, List.count, List.any, List.all, List.foldl,
      List.drop, List.length, digitVal0, digitVal3, digitVal4, digitVal9]
    norm_num [overflowBound]
  · have h1 : firstRun ("AED 1,250.00").toList = ['1', ',', '2', '5', '0', '.', '0', '0'] := by decide
    simp +decide only [cleanPrice, h1, parseFloat, natFromDigits, List.filter,
      List.takeWhile, List.dropWhile, List.count, List.any, List.all, List.foldl,
      List.drop, List.length, digitVal0, digitVal1, digitVal2, digitVal5]
    norm_num [overflowBound]
  · have h1 : firstRun ("1.2.3").toList = ['1', '.', '2', '.', '3'] := by decide
    simp +decide only [cleanPrice, h1, parseFloat, List.filter, List.count]

theorem assoc_nodup_eq {d : List (String × List Product)} (h : (d.map Prod.fst).Nodup)
    {n : String} {a b : List Product} (ha : (n, a) ∈ d) (hb : (n, b) ∈ d) : a = b := by
  induction d with
  | nil => cases ha
  | cons hd tl ih =>
    simp only [List.map_cons, List.nodup_cons] at h
    rcases List.mem_cons.mp ha with ha1 | ha1 <;> rcases List.mem_cons.mp hb with hb1 | hb1
    · exact congrArg Prod.snd (ha1.trans hb1.symm)
    · exfalso
      apply h.1
      rw [← ha1]
      exact List.mem_map.mpr ⟨(n, b), hb1, rfl⟩
    · exfalso
      apply h.1
      rw [← hb1]
      exact List.mem_map.mpr ⟨(n, a), ha1, rfl⟩
    · exact ih h.2 ha1 hb1

theorem toExcel_mem {d : List (String × List Product)} {e : String × List Product}
    (h : e ∈ toExcel d) : e ∈ d ∧ e.2 ≠ [] := by
  unfold toExcel at h
  have := List.mem_filter.mp h
  refine ⟨this.1, ?_⟩
  simpa [List.isEmpty_iff] using this.2

theorem toExcel_filter_nil {tl : List (String × List Product)} {name : String}
    (hnot : name ∉ tl.map Prod.fst) :
    (toExcel tl).filter (fun e => e.1 == name) = [] := by
  rw [List.filter_eq_nil_iff]
  intro e he
  have hmem := (toExcel_mem he).1
  simp only [beq_iff_eq]
  intro heq
  apply hnot
  rw [← heq]
  exact List.mem_map.mpr ⟨e, hmem, rfl⟩

theorem toExcel_filter_eq {d : List (String × List Product)} (h : (d.map Prod.fst).Nodup)
    {name : String} {rows : List Product} (hmem : (name, rows) ∈ d) (hne : rows ≠ []) :
    (toExcel d).filter (fun e => e.1 == name) = [(name, rows)] := by
  induction d with
  | nil => cases hmem
  | cons hd tl ih =>
    simp only [List.map_cons, List.nodup_cons] at h
    rcases List.mem_cons.mp hmem with h1 | h1
    · have hhd : hd = (name, rows) := h1.symm
      subst hhd
      have hni : name ∉ tl.map Prod.fst := h.1
      unfold toExcel
      rw [List.filter_cons]
      rw [if_pos (by simpa [List.isEmpty_iff] using hne)]
      rw [List.filter_cons]
      rw [if_pos (by simp)]
      have := toExcel_filter_nil hni
      unfold toExcel at this
      rw [this]
    · have hne2 : hd.1 ≠ name := by
        intro heq
        apply h.1
        rw [heq]
        exact List.mem_map.mpr ⟨(name, rows), h1, rfl⟩
      have ihr := ih h.2 h1
      unfold toExcel
      rw [List.filter_cons]
      by_cases hemp : hd.2.isEmpty
      · rw [if_neg (by simp [hemp])]
        unfold toExcel at ihr
        exact ihr
      · rw [if_pos (by simp [hemp])]
        rw [List.filter_cons]
        rw [if_neg (by simp [hne2])]
        unfold toExcel at ihr
        exact ihr

/-- C9: for a workbook input with distinct collection names, `to_excel`
writes no sheet for an empty collection, and for each non-empty
collection exactly one sheet, whose rows are exactly that collection's
records. -/
theorem toExcel_sheets (d : List (String × List Product))
    (h : (d.map Prod.fst).Nodup) :
    (∀ name rows, (name, rows) ∈ d → rows = [] →
       ∀ r, (name, r) ∉ toExcel d) ∧
    (∀ name rows, (name, rows) ∈ d → rows ≠ [] →
       (toExcel d).filter (fun e => e.1 == name) = [(name, rows)]) := by
  constructor
  · intro name rows hmem hnil r hr
    have h2 := toExcel_mem hr
    have : r = rows := assoc_nodup_eq h h2.1 hmem
    rw [this, hnil] at h2
    exact h2.2 rfl
  · intro name rows hmem hne
    exact toExcel_filter_eq h hmem hne

theorem toExcel_sheets_witness :
    ((∀ name rows, (name, rows) ∈ [("empty", ([] : List Product)), ("full", [pA1])] →
        rows = [] → ∀ r, (name, r) ∉ toExcel [("empty", []), ("full", [pA1])]) ∧
      (∀ name rows, (name, rows) ∈ [("empty", ([] : List Product)), ("full", [pA1])] →
        rows ≠ [] →
        (toExcel [("empty", []), ("full", [pA1])]).filter (fun e => e.1 == name) =
          [(name, rows)])) :=
  toExcel_sheets [("empty", []), ("full", [pA1])] (by decide)

/-- C3: for any two snapshots and any filter selection, the three
identifier sets of the comparator are pairwise disjoint and their union
is the union of the identifier sets of the two filtered snapshots. -/
theorem comparator_partition (dfA dfB : List Product)
    (selectedBrands selectedCategories : List String) :
    Disjoint (productsOnlyInA dfA dfB selectedBrands selectedCategories)
      (productsOnlyInB dfA dfB selectedBrands selectedCategories) ∧
    Disjoint (productsOnlyInA dfA dfB selectedBrands selectedCategories)
      (productsInBoth dfA dfB selectedBrands selectedCategories) ∧
    Disjoint (productsOnlyInB dfA dfB selectedBrands selectedCategories)
      (productsInBoth dfA dfB selectedBrands selectedCategories) ∧
    (productsOnlyInA dfA dfB selectedBrands selectedCategories ∪
        productsOnlyInB dfA dfB selectedBrands selectedCategories ∪
        productsInBoth dfA dfB selectedBrands selectedCategories) =
      idsOf (filterSnapshot selectedBrands selectedCategories dfA) ∪
        idsOf (filterSnapshot selectedBrands selectedCategories dfB) := by
  unfold productsOnlyInA productsOnlyInB productsInBoth
  refine ⟨?_, ?_, ?_, ?_⟩
  · rw [Finset.disjoint_left]
    intro a ha hb
    simp only [Finset.mem_sdiff] at ha hb
    exact hb.2 ha.1
  · rw [Finset.disjoint_left]
    intro a ha hb
    simp only [Finset.mem_sdiff] at ha
    simp only [Finset.mem_inter] at hb
    exact ha.2 hb.2
  · rw [Finset.disjoint_left]
    intro a ha hb
    simp only [Finset.mem_sdiff] at ha
    simp only [Finset.mem_inter] at hb
    exact ha.2 hb.1
  · ext a
    simp only [Finset.mem_union, Finset.mem_sdiff, Finset.mem_inter]
    tauto

/-- C6: on the concrete scenario A = [id1 brand X, id2 brand Y],
B = [id2 brand Y, id3 brand X], the comparison with no filters yields
only-in-A = id1, only-in-B = id3, in-both = id2, and with brand filter
X yields only-in-A = id1, only-in-B = id3, in-both empty. -/
theorem comparator_filter_example :
    productsOnlyInA [pA1, pA2] [pA2, pB3] [] [] = {"id1"} ∧
    productsOnlyInB [pA1, pA2] [pA2, pB3] [] [] = {"id3"} ∧
    productsInBoth [pA1, pA2] [pA2, pB3] [] [] = {"id2"} ∧
    productsOnlyInA [pA1, pA2] [pA2, pB3] ["X"] [] = {"id1"} ∧
    productsOnlyInB [pA1, pA2] [pA2, pB3] ["X"] [] = {"id3"} ∧
    productsInBoth [pA1, pA2] [pA2, pB3] ["X"] [] = ∅ := by decide

/-- C1: on a well-formed channel-family document whose single item has
the non-empty identifier "1", `parse_xml_feed` does NOT return that
record: reading the unassigned local `atom_ns_uri` raises
`UnboundLocalError`, the generic handler reports an error and the
function returns the empty list.  The third conjunct shows the record
the item itself would yield, so the emptiness is not for lack of an
identifier. -/
theorem parseXmlFeed_channel_item_bug :
    (parseXmlFeed (.ok channelDoc)).products = [] ∧
    (parseXmlFeed (.ok channelDoc)).error = some unexpectedErrorMsg ∧
    extractItem chanItem =
      some ⟨"1", some "Shirt", none, none, none, none, none, none⟩ := by decide

/-- C4: for every structurally invalid input (a raised `ET.ParseError`),
`parse_xml_feed` returns the empty list and reports an error; the
embedding is a total function, so no exception escapes. -/
theorem parseXmlFeed_malformed (e : String) :
    (parseXmlFeed (.error e)).products = [] ∧
    (parseXmlFeed (.error e)).error.isSome := ⟨rfl, rfl⟩

/-- C10: the sanitized snapshot key is not injective: the distinct feed
names "A B" and "A_B" give the same snapshot file path for the same
date, so the two feeds share one persisted snapshot. -/
theorem snapshotFile_collision :
    ("A B" : String) ≠ "A_B" ∧
    snapshotFile "A B" "2026-10-12" = snapshotFile "A_B" "2026-10-12" := by decide

/-- C8: if a readable snapshot exists for the key, the loader returns
its records without warnings, errors, or touching the file system; if
the snapshot exists but deserialization fails, the loader reports a
warning and falls through to the fetch path (its data, resulting file
system and errors are those of `fetchAndStore`), rather than raising. -/
theorem loadOrFetch_snapshot_read (fs : FS) (feedKey dateStr : String)
    (fetch : FetchOutcome) :
    (∀ data, fs.read (snapshotFile feedKey dateStr) = some (.good data) →
       loadOrFetchFeedData fs feedKey dateStr fetch = ⟨data, fs, [], []⟩) ∧
    (fs.read (snapshotFile feedKey dateStr) = some .corrupt →
       loadOrFetchFeedData fs feedKey dateStr fetch =
         ⟨(fetchAndStore fs feedKey (snapshotFile feedKey dateStr) fetch).data,
          (fetchAndStore fs feedKey (snapshotFile feedKey dateStr) fetch).fs,
          ("Could not load snapshot " ++ snapshotFile feedKey dateStr ++ ". Refetching data.") ::
            (fetchAndStore fs feedKey (snapshotFile feedKey dateStr) fetch).warnings,
          (fetchAndStore fs feedKey (snapshotFile feedKey dateStr) fetch).errors⟩) := by
  constructor
  · intro data hread
    unfold loadOrFetchFeedData
    simp only [hread]
  · intro hread
    unfold loadOrFetchFeedData
    simp only [hread]

theorem loadOrFetch_snapshot_read_witness :
    loadOrFetchFeedData ⟨[(snapshotFile "UAE English" "2026-10-12", .good [pA1])]⟩
        "UAE English" "2026-10-12" (.requestError "down") =
      ⟨[pA1], ⟨[(snapshotFile "UAE English" "2026-10-12", .good [pA1])]⟩, [], []⟩ :=
  (loadOrFetch_snapshot_read ⟨[(snapshotFile "UAE English" "2026-10-12", .good [pA1])]⟩
      "UAE English" "2026-10-12" (.requestError "down")).1 [pA1] (by decide)

/-- C5 counterexample: with no persisted snapshot and a successful fetch
whose document parses to zero records (a channel with no items), the
loader returns an empty snapshot but writes nothing to disk, so an
empty record sequence is NOT persisted, contrary to the claim. -/
theorem loadOrFetch_empty_not_persisted :
    (loadOrFetchFeedData ⟨[]⟩ "UAE English" "2026-10-12"
        (.success (.ok noItemsChannelDoc))).data = [] ∧
    (loadOrFetchFeedData ⟨[]⟩ "UAE English" "2026-10-12"
        (.success (.ok noItemsChannelDoc))).fs = ⟨[]⟩ := by decide

/-- C5 (amended): when no persisted snapshot exists and the fetch
succeeds, the loader persists the parsed snapshot under the key before
returning it when the parsed record list is non-empty; an empty record
list is returned as an empty snapshot without being persisted. -/
theorem loadOrFetch_persists (fs : FS) (feedKey dateStr : String)
    (body : Except String XmlElem)
    (hmiss : fs.read (snapshotFile feedKey dateStr) = none) :
    ((parseXmlFeed body).products ≠ [] →
      (loadOrFetchFeedData fs feedKey dateStr (.success body)).data =
          (parseXmlFeed body).products ∧
      (loadOrFetchFeedData fs feedKey dateStr (.success body)).fs.read
          (snapshotFile feedKey dateStr) = some (.good (parseXmlFeed body).products)) ∧
    ((parseXmlFeed body).products = [] →
      (loadOrFetchFeedData fs feedKey dateStr (.success body)).data = [] ∧
      (loadOrFetchFeedData fs feedKey dateStr (.success body)).fs = fs) := by
  unfold loadOrFetchFeedData
  simp only [hmiss]
  unfold fetchAndStore
  dsimp only
  constructor
  · intro hne
    rw [if_neg (by simpa [List.isEmpty_iff] using hne)]
    refine ⟨rfl, ?_⟩
    simp [FS.read, FS.write]
  · intro hnil
    rw [if_pos (by simp [hnil])]
    exact ⟨rfl, rfl⟩

theorem loadOrFetch_persists_witness :
    (loadOrFetchFeedData ⟨[]⟩ "UAE English" "2026-10-12"
        (.success (.ok oneItemFallbackDoc))).data =
      (parseXmlFeed (.ok oneItemFallbackDoc)).products ∧
    (loadOrFetchFeedData ⟨[]⟩ "UAE English" "2026-10-12"
        (.success (.ok oneItemFallbackDoc))).fs.read (snapshotFile "UAE English" "2026-10-12") =
      some (.good (parseXmlFeed (.ok oneItemFallbackDoc)).products) :=
  (loadOrFetch_persists ⟨[]⟩ "UAE English" "2026-10-12" (.ok oneItemFallbackDoc) rfl).1
    (by decide)

/-- C7 counterexample: an item whose `g:product_type` element is present
with empty text and which has no `g:custom_label_0` produces a record
whose category is the missing marker `none`: the present-but-empty
element is conflated with missing because the category fallback fires
on any falsy value, not only on absence. -/
theorem category_empty_conflated :
    emptyTypeItem.findtext (gTag "product_type") = some "" ∧
    (parseXmlFeed (.ok fallbackDoc)).products.map Product.category = [none] := by decide

/-- C7 (amended): in every record the extractor produces, brand and
image_link are exactly the found text (possibly empty, never conflated
with missing), and the title and link fallbacks fire only on absence,
so a present title or link is kept as is; the category fallback however
fires when `g:product_type` is absent OR present with empty text, in
which case category is whatever `g:custom_label_0` lookup yields. -/
theorem extractItem_optional_fields (item : XmlElem) (p : Product)
    (h : extractItem item = some p) :
    p.brand = item.findtext (gTag "brand") ∧
    p.image_link = item.findtext (gTag "image_link") ∧
    (∀ t, item.findtext "title" = some t → p.title = some t) ∧
    (∀ l, item.findtext "link" = some l → p.link = some l) ∧
    (∀ c, item.findtext (gTag "product_type") = some c → c ≠ "" → p.category = some c) ∧
    ((item.findtext (gTag "product_type") = none ∨
        item.findtext (gTag "product_type") = some "") →
      p.category = item.findtext (gTag "custom_label_0")) := by
  unfold extractItem at h
  simp only at h
  match hpid : item.findtext (gTag "id") with
  | none => rw [hpid] at h; exact absurd h (by simp)
  | some pid =>
    rw [hpid] at h
    dsimp only at h
    by_cases hp : pid = ""
    · simp [hp] at h
    · rw [if_neg hp] at h
      simp only [Option.some.injEq] at h
      subst h
      refine ⟨rfl, rfl, ?_, ?_, ?_, ?_⟩
      · intro t ht; simp [ht]
      · intro l hl; simp [hl]
      · intro c hc hne; simp [hc, hne]
      · intro hor
        rcases hor with hn | he
        · simp [hn]
        · simp [he]

theorem extractItem_optional_fields_witness :
    productW.brand = itemW.findtext (gTag "brand") ∧
    productW.image_link = itemW.findtext (gTag "image_link") ∧
    (∀ t, itemW.findtext "title" = some t → productW.title = some t) ∧
    (∀ l, itemW.findtext "link" = some l → productW.link = some l) ∧
    (∀ c, itemW.findtext (gTag "product_type") = some c → c ≠ "" →
      productW.category = some c) ∧
    ((itemW.findtext (gTag "product_type") = none ∨
        itemW.findtext (gTag "product_type") = some "") →
      productW.category = itemW.findtext (gTag "custom_label_0")) :=
  extractItem_optional_fields itemW productW (by decide)
